import Mathlib

/-!
Shallow embedding of the Statistica reverberation-time core
(src/models/material.py, src/models/room.py,
src/utils/acoustic_calculations.py).

Python floats are modelled by `ℚ` for all closed-form arithmetic and by `ℝ`
where the source applies `math.log` / `math.sqrt`.  Python exceptions are
modelled by `Except CalcError`.  Python dicts keyed by `int` frequencies are
modelled by association lists `List (Int × ℚ)` (unique keys, insertion
ordered, first match wins).
-/

/-- Error taxonomy: one constructor per distinct `raise` site (or Python
builtin error) reachable in the embedded code. -/
inductive CalcError where
  /-- Room: empty name. -/
  | emptyRoomName : CalcError
  /-- Room: neither dimensions nor any manual area supplied. -/
  | geometryMissing : CalcError
  /-- Room: dimensions given but non-positive (dead branch in the source). -/
  | badDimensions : CalcError
  /-- Room: supplied manual wall area is non-positive. -/
  | badWallArea : CalcError
  /-- Room: supplied manual floor area is non-positive. -/
  | badFloorArea : CalcError
  /-- Room: supplied manual ceiling area is non-positive. -/
  | badCeilingArea : CalcError
  /-- Room.volume: neither manual volume nor full dimensions. -/
  | volumeUnresolved : CalcError
  /-- Room.wall_area: neither manual area nor full dimensions. -/
  | wallUnresolved : CalcError
  /-- Room.floor_area: neither manual area nor length+width. -/
  | floorUnresolved : CalcError
  /-- Room.ceiling_area: neither manual area nor length+width. -/
  | ceilingUnresolved : CalcError
  /-- Material: empty name. -/
  | emptyMaterialName : CalcError
  /-- Material: non-positive area. -/
  | badMaterialArea : CalcError
  /-- Material: surface type outside the fixed enum. -/
  | badSurfaceType : CalcError
  /-- Material: category outside the fixed enum. -/
  | badCategory : CalcError
  /-- Material: frequency not a positive integer. -/
  | badFrequencyValue : CalcError
  /-- Material: absorption coefficient outside [0, 1]. -/
  | coefficientOutOfRange (frequency : Int) : CalcError
  /-- Material: coefficient requested for an absent band. -/
  | coefficientNotFound (frequency : Int) : CalcError
  /-- Engine: room has no materials. -/
  | noMaterials : CalcError
  /-- Python ZeroDivisionError (float division by zero). -/
  | zeroDivision : CalcError
  /-- Python math.sqrt of a negative number. -/
  | mathDomain : CalcError
  /-- Engine: denominator of the reverberation formula is zero. -/
  | zeroDenominator : CalcError
  /-- Validation: non-positive reverberation time at a band. -/
  | nonPositiveReverberation (frequency : Int) : CalcError
  /-- Validation: average coefficient outside [0, 1] at a band. -/
  | alphaOutOfRange (frequency : Int) : CalcError
  /-- Engine loop wrapper: error while computing one band. -/
  | atFrequency (frequency : Int) (inner : CalcError) : CalcError
deriving DecidableEq, Repr

/-- First-match lookup in an association list, the model of Python
`dict[freq]` / `freq in dict`. -/
def lookupCoeff : List (Int × ℚ) → Int → Option ℚ
  | [], _ => none
  | (f, c) :: rest, freq => if f = freq then some c else lookupCoeff rest freq

/-- Python dict assignment `d[freq] = c`: replace in place if the key exists,
else append. -/
def insertCoeff : List (Int × ℚ) → Int → ℚ → List (Int × ℚ)
  | [], freq, c => [(freq, c)]
  | (g, d) :: rest, freq, c =>
      if g = freq then (freq, c) :: rest else (g, d) :: insertCoeff rest freq c

/-- `src/models/material.py` : class `Material` (fields in `__init__` order). -/
structure Material where
  name : String
  surface_type : String
  area : ℚ
  absorption_coefficients : List (Int × ℚ)
  category : String
deriving DecidableEq, Repr

/-- Python's `not name.strip()`: the name consists of whitespace only. -/
def isBlank (s : String) : Bool := s.data.all (·.isWhitespace)

/-- The fixed surface-type enum (`material.py` line 35). -/
def surfaceTypes : List String := ["Стены", "Потолок", "Пол", "Остекление", "Двери"]

/-- The fixed category enum (`material.py` line 38). -/
def materialCategories : List String := ["Ограждающие конструкции", "Акустические конструкции"]

/-- `material.py` lines 42-47: per-item validation of the coefficients dict,
frequency first, then coefficient range, in iteration order. -/
def checkCoefficients : List (Int × ℚ) → Except CalcError Unit
  | [] => .ok ()
  | (freq, coeff) :: rest =>
      if freq ≤ 0 then .error .badFrequencyValue
      else if ¬ (0 ≤ coeff ∧ coeff ≤ 1) then .error (.coefficientOutOfRange freq)
      else checkCoefficients rest

/-- `Material.__init__` (`material.py` lines 11-47): full construction-time
validation in source order; on success the validated record. -/
def Material.init (name : String) (surface_type : String) (area : ℚ)
    (absorption_coefficients : List (Int × ℚ))
    (category : String := "Ограждающие конструкции") : Except CalcError Material :=
  if isBlank name then .error .emptyMaterialName
  else if area ≤ 0 then .error .badMaterialArea
  else if surface_type ∉ surfaceTypes then .error .badSurfaceType
  else if category ∉ materialCategories then .error .badCategory
  else match checkCoefficients absorption_coefficients with
    | .error e => .error e
    | .ok _ => .ok ⟨name, surface_type, area, absorption_coefficients, category⟩

/-- `Material.get_absorption_coefficient` (`material.py` lines 49-62). -/
def Material.get_absorption_coefficient (m : Material) (frequency : Int) :
    Except CalcError ℚ :=
  match lookupCoeff m.absorption_coefficients frequency with
  | none => .error (.coefficientNotFound frequency)
  | some c => .ok c

/-- `Material.set_absorption_coefficient` (`material.py` lines 64-78):
validate frequency, then coefficient range, then store. -/
def Material.set_absorption_coefficient (m : Material) (frequency : Int)
    (coefficient : ℚ) : Except CalcError Material :=
  if frequency ≤ 0 then .error .badFrequencyValue
  else if ¬ (0 ≤ coefficient ∧ coefficient ≤ 1) then
    .error (.coefficientOutOfRange frequency)
  else .ok { m with
    absorption_coefficients :=
      insertCoeff m.absorption_coefficients frequency coefficient }

/-- `src/models/room.py` : class `Room` (fields in `__init__` order). -/
structure Room where
  name : String
  purpose : String
  length : Option ℚ
  width : Option ℚ
  height : Option ℚ
  manual_wall_area : Option ℚ
  manual_floor_area : Option ℚ
  manual_ceiling_area : Option ℚ
  manual_volume : Option ℚ
  materials : List Material
deriving DecidableEq, Repr

/-- Python `x is not None and x > 0` on an optional float. -/
def optPos : Option ℚ → Bool
  | some v => decide (0 < v)
  | none => false

/-- Python `x is not None and x <= 0` on an optional float. -/
def optNonpos : Option ℚ → Bool
  | some v => decide (v ≤ 0)
  | none => false

/-- The (dead) dimension re-check of `room.py` lines 57-59: all three
dimensions present and one of them non-positive. -/
def dimsNonpositive : Option ℚ → Option ℚ → Option ℚ → Bool
  | some l, some w, some h => decide (l ≤ 0 ∨ w ≤ 0 ∨ h ≤ 0)
  | _, _, _ => false

/-- `Room.__init__` (`room.py` lines 14-67): construction-time validation in
source order; the material list starts empty. -/
def Room.init (name purpose : String)
    (length width height : Option ℚ := none)
    (manual_wall_area manual_floor_area manual_ceiling_area : Option ℚ := none)
    (manual_volume : Option ℚ := none) : Except CalcError Room :=
  if isBlank name then .error .emptyRoomName
  else
    let has_dimensions := optPos length && optPos width && optPos height
    let has_manual_areas := optPos manual_wall_area || optPos manual_floor_area ||
      optPos manual_ceiling_area
    if !has_dimensions && !has_manual_areas then .error .geometryMissing
    else if has_dimensions && dimsNonpositive length width height then
      .error .badDimensions
    else if optNonpos manual_wall_area then .error .badWallArea
    else if optNonpos manual_floor_area then .error .badFloorArea
    else if optNonpos manual_ceiling_area then .error .badCeilingArea
    else .ok ⟨name, purpose, length, width, height, manual_wall_area,
      manual_floor_area, manual_ceiling_area, manual_volume, []⟩

/-- `Room.volume` property (`room.py` lines 69-77). -/
def Room.volume (r : Room) : Except CalcError ℚ :=
  match r.manual_volume with
  | some v => .ok v
  | none =>
    match r.length, r.width, r.height with
    | some l, some w, some h => .ok (l * w * h)
    | _, _, _ => .error .volumeUnresolved

/-- `Room.wall_area` property (`room.py` lines 84-92). -/
def Room.wall_area (r : Room) : Except CalcError ℚ :=
  match r.manual_wall_area with
  | some a => .ok a
  | none =>
    match r.length, r.width, r.height with
    | some l, some w, some h => .ok (2 * (l * h + w * h))
    | _, _, _ => .error .wallUnresolved

/-- `Room.floor_area` property (`room.py` lines 94-102): needs only length
and width when not manual. -/
def Room.floor_area (r : Room) : Except CalcError ℚ :=
  match r.manual_floor_area with
  | some a => .ok a
  | none =>
    match r.length, r.width with
    | some l, some w => .ok (l * w)
    | _, _ => .error .floorUnresolved

/-- `Room.ceiling_area` property (`room.py` lines 104-112). -/
def Room.ceiling_area (r : Room) : Except CalcError ℚ :=
  match r.manual_ceiling_area with
  | some a => .ok a
  | none =>
    match r.length, r.width with
    | some l, some w => .ok (l * w)
    | _, _ => .error .ceilingUnresolved

/-- `Room.total_surface_area` property (`room.py` lines 79-82):
wall + floor + ceiling, evaluated left to right. -/
def Room.total_surface_area (r : Room) : Except CalcError ℚ := do
  let w ← r.wall_area
  let f ← r.floor_area
  let c ← r.ceiling_area
  pure (w + f + c)

/-- `Room.get_total_area_by_material` (`room.py` lines 150-164): sum of the
areas of the materials whose name matches; a plain sum, no error channel. -/
def Room.get_total_area_by_material (r : Room) (material_name : String) : ℚ :=
  (r.materials.map (fun m => if m.name = material_name then m.area else 0)).sum

/-- Per-material contribution `area × coefficient(frequency)`, zero when the
band is absent (`room.py` lines 187-190 loop body). -/
def materialAbsorption (m : Material) (frequency : Int) : ℚ :=
  match lookupCoeff m.absorption_coefficients frequency with
  | some c => m.area * c
  | none => 0

/-- `Room.calculate_equivalent_absorption_area` (`room.py` lines 175-202):
all-materials sum plus the additive floor term. -/
def Room.calculate_equivalent_absorption_area (r : Room) (frequency : Int) :
    Except CalcError ℚ := do
  let total_absorption :=
    (r.materials.map (fun m => materialAbsorption m frequency)).sum
  let fa ← r.floor_area
  pure (total_absorption + (if frequency ≤ 500 then 0.09 else 0.05) * fa)

/-- `Room.calculate_structural_absorption_area` (`room.py` lines 204-231):
structural-only sum plus the additive floor term. -/
def Room.calculate_structural_absorption_area (r : Room) (frequency : Int) :
    Except CalcError ℚ := do
  let total_absorption :=
    (r.materials.map (fun m =>
      if m.category = "Ограждающие конструкции" then materialAbsorption m frequency
      else 0)).sum
  let fa ← r.floor_area
  pure (total_absorption + (if frequency ≤ 500 then 0.09 else 0.05) * fa)

/-- `Room.calculate_acoustic_absorption_area` (`room.py` lines 233-250):
acoustic-only sum; the source adds no floor term here and never touches
`floor_area`, so the function is total. -/
def Room.calculate_acoustic_absorption_area (r : Room) (frequency : Int) : ℚ :=
  (r.materials.map (fun m =>
    if m.category = "Акустические конструкции" then materialAbsorption m frequency
    else 0)).sum

/-- Summed area of acoustic-treatment materials (`room.py` lines 259-269 and
`acoustic_calculations.py` line 65; the per-surface grouping of the source
only ever feeds this total). -/
def acousticAreaTotal (r : Room) : ℚ :=
  (r.materials.map (fun m =>
    if m.category = "Акустические конструкции" then m.area else 0)).sum

/-- `Room.get_effective_surface_area` (`room.py` lines 252-271): the acoustic
total is computed but the subtraction is commented out in the source, so the
result is `total_surface_area` unchanged. -/
def Room.get_effective_surface_area (r : Room) : Except CalcError ℚ :=
  let _acoustic_area_total := acousticAreaTotal r
  r.total_surface_area

/-- `Room.calculate_critical_frequency` (`room.py` lines 166-173):
`1770 / math.sqrt(volume)`; `math.sqrt` raises on a negative argument and the
division raises on `sqrt 0`. -/
noncomputable def Room.calculate_critical_frequency (r : Room) :
    Except CalcError ℝ := do
  let v ← r.volume
  if v < 0 then throw .mathDomain
  else if v = 0 then throw .zeroDivision
  else pure (1770 / Real.sqrt (v : ℝ))

/-- `Room.calculate_average_absorption_coefficient` (`room.py` lines 273-284):
all-materials aggregate over `total_surface_area`, clamped at 0.99. -/
def Room.calculate_average_absorption_coefficient (r : Room) (frequency : Int) :
    Except CalcError ℚ := do
  let equivalent_absorption_area ← r.calculate_equivalent_absorption_area frequency
  let tsa ← r.total_surface_area
  if tsa = 0 then throw .zeroDivision
  else pure (min (equivalent_absorption_area / tsa) 0.99)

/-- `Room.calculate_structural_average_absorption_coefficient`
(`room.py` lines 286-298): structural aggregate over the effective area. -/
def Room.calculate_structural_average_absorption_coefficient (r : Room)
    (frequency : Int) : Except CalcError ℚ := do
  let equivalent_absorption_area ← r.calculate_structural_absorption_area frequency
  let esa ← r.get_effective_surface_area
  if esa = 0 then throw .zeroDivision
  else pure (min (equivalent_absorption_area / esa) 0.99)

/-- `Room.calculate_combined_average_absorption_coefficient`
(`room.py` lines 300-312): all-materials aggregate over the effective area. -/
def Room.calculate_combined_average_absorption_coefficient (r : Room)
    (frequency : Int) : Except CalcError ℚ := do
  let equivalent_absorption_area ← r.calculate_equivalent_absorption_area frequency
  let esa ← r.get_effective_surface_area
  if esa = 0 then throw .zeroDivision
  else pure (min (equivalent_absorption_area / esa) 0.99)

/-- `calculate_phi_function` (`acoustic_calculations.py` lines 9-21):
`φ(α) = -ln(1 - min(α, 0.99))`. -/
noncomputable def calculate_phi_function (alpha_avg : ℝ) : ℝ :=
  -Real.log (1 - min alpha_avg 0.99)

/-- `get_air_absorption_coefficient` (`acoustic_calculations.py` lines 23-44):
fixed table with default 0.0006. -/
def get_air_absorption_coefficient (frequency : Int) : ℚ :=
  if frequency = 125 then 0.0000
  else if frequency = 250 then 0.0000
  else if frequency = 500 then 0.0000
  else if frequency = 1000 then 0.0000
  else if frequency = 2000 then 0.0010
  else if frequency = 4000 then 0.0002
  else 0.0006

/-- `acoustic_calculations.py` lines 59-68: the denominator area used by
`calculate_reverberation_time_for_frequency` — the supplied surface area (or
`total_surface_area` when `None`), minus the summed acoustic-treatment area
only when `has_acoustic_materials` is set. -/
def rtEffectiveArea (room : Room) (surface_area : Option ℚ)
    (has_acoustic_materials : Bool) : Except CalcError ℚ := do
  let sa ← match surface_area with
    | some s => pure s
    | none => room.total_surface_area
  if has_acoustic_materials then pure (sa - acousticAreaTotal room)
  else pure sa

/-- `acoustic_calculations.py` lines 59-71: the (unclamped) recomputed average
coefficient `equivalent_absorption_area / effective_surface_area` that
`calculate_reverberation_time_for_frequency` passes to the phi function;
Python raises ZeroDivisionError when the area is zero. -/
def rtPhiArgument (room : Room) (equivalent_absorption_area : ℚ)
    (surface_area : Option ℚ) (has_acoustic_materials : Bool) :
    Except CalcError ℚ := do
  let eff ← rtEffectiveArea room surface_area has_acoustic_materials
  if eff = 0 then throw .zeroDivision
  else pure (equivalent_absorption_area / eff)

/-- `calculate_reverberation_time_for_frequency`
(`acoustic_calculations.py` lines 47-86).  The `alpha_avg` parameter is
accepted but unused, exactly as in the source (the average is recomputed from
`equivalent_absorption_area`).  The volume is read only where the source
reads it: in the high-frequency denominator and in the final numerator. -/
noncomputable def calculate_reverberation_time_for_frequency (room : Room)
    (frequency : Int) (alpha_avg : ℚ) (equivalent_absorption_area : ℚ)
    (surface_area : Option ℚ := none) (has_acoustic_materials : Bool := false) :
    Except CalcError ℝ := do
  let _ := alpha_avg
  let eff ← rtEffectiveArea room surface_area has_acoustic_materials
  if eff = 0 then throw CalcError.zeroDivision
  else do
    let avg_alpha : ℚ := equivalent_absorption_area / eff
    let phi_value : ℝ := calculate_phi_function (avg_alpha : ℝ)
    let denominator : ℝ ←
      if frequency ≤ 1000 then pure ((eff : ℝ) * phi_value)
      else do
        let v ← room.volume
        pure ((eff : ℝ) * phi_value + (get_air_absorption_coefficient frequency : ℝ) * (v : ℝ))
    if denominator = 0 then throw CalcError.zeroDenominator
    else do
      let v ← room.volume
      pure (0.163 * (v : ℝ) / denominator)

/-- The six standard octave bands (`acoustic_calculations.py` line 103). -/
def frequencies : List Int := [125, 250, 500, 1000, 2000, 4000]

/-- Per-band values of the structural-only result set
(`acoustic_calculations.py` lines 109-143). -/
structure BandValues where
  reverberation_time : ℝ
  alpha_avg : ℚ
  equivalent_absorption_area : ℚ
  phi_value : ℝ

/-- Per-band values of the combined result set
(`acoustic_calculations.py` lines 173-212). -/
structure CombinedBandValues where
  reverberation_time : ℝ
  alpha_avg : ℚ
  equivalent_absorption_area : ℚ
  structural_absorption_area : ℚ
  acoustic_absorption_area : ℚ
  phi_value : ℝ

/-- Scalar header plus per-band values of the structural result set. -/
structure CalcResults where
  critical_frequency : ℝ
  room_volume : ℚ
  total_surface_area : ℚ
  effective_surface_area : ℚ
  bands : List (Int × BandValues)

/-- Scalar header plus per-band values of the combined result set. -/
structure CombinedCalcResults where
  critical_frequency : ℝ
  room_volume : ℚ
  total_surface_area : ℚ
  effective_surface_area : ℚ
  bands : List (Int × CombinedBandValues)

/-- `validate_calculation_results` (`acoustic_calculations.py` lines 283-305)
on the per-band (frequency, alpha, reverberation time) triples: reverberation
time must be strictly positive and alpha within [0, 1]; the >10 s case is only
printed in the source and has no effect on control flow. -/
noncomputable def validate_calculation_results :
    List (Int × ℚ × ℝ) → Except CalcError Unit
  | [] => .ok ()
  | (f, alpha_avg, rt) :: rest =>
      if rt ≤ 0 then .error (.nonPositiveReverberation f)
      else if ¬ (0 ≤ alpha_avg ∧ alpha_avg ≤ 1) then .error (.alphaOutOfRange f)
      else validate_calculation_results rest

/-- One iteration of the structural per-frequency loop
(`acoustic_calculations.py` lines 122-143), in source evaluation order. -/
noncomputable def structuralBandCalc (room : Room) (frequency : Int) :
    Except CalcError BandValues := do
  let equivalent_absorption_area ← room.calculate_structural_absorption_area frequency
  let alpha_avg ← room.calculate_structural_average_absorption_coefficient frequency
  let phi_value := calculate_phi_function (alpha_avg : ℝ)
  let effective_surface_area ← room.get_effective_surface_area
  let rt ← calculate_reverberation_time_for_frequency room frequency alpha_avg
    equivalent_absorption_area (some effective_surface_area) false
  pure ⟨rt, alpha_avg, equivalent_absorption_area, phi_value⟩

/-- The structural per-frequency loop over a frequency list, each band's error
wrapped with its frequency (`acoustic_calculations.py` lines 122-146). -/
noncomputable def structuralBands (room : Room) :
    List Int → Except CalcError (List (Int × BandValues))
  | [] => pure []
  | f :: rest => do
    let bv ← (structuralBandCalc room f).mapError (CalcError.atFrequency f)
    let tail ← structuralBands room rest
    pure ((f, bv) :: tail)

/-- `calculate_structural_reverberation_time`
(`acoustic_calculations.py` lines 89-151): materials check, critical
frequency, scalar header, per-band loop, validation. -/
noncomputable def calculate_structural_reverberation_time (room : Room) :
    Except CalcError CalcResults := do
  if room.materials = [] then throw CalcError.noMaterials
  else do
    let critical_frequency ← room.calculate_critical_frequency
    let room_volume ← room.volume
    let tsa ← room.total_surface_area
    let esa ← room.get_effective_surface_area
    let bands ← structuralBands room frequencies
    let _ ← validate_calculation_results
      (bands.map (fun b => (b.1, b.2.alpha_avg, b.2.reverberation_time)))
    pure ⟨critical_frequency, room_volume, tsa, esa, bands⟩

/-- One iteration of the combined per-frequency loop
(`acoustic_calculations.py` lines 188-212), in source evaluation order; the
reverberation-time call (lines 202-204) leaves `surface_area = None` and
`has_acoustic_materials = False` (its defaults). -/
noncomputable def combinedBandCalc (room : Room) (frequency : Int) :
    Except CalcError CombinedBandValues := do
  let equivalent_absorption_area ← room.calculate_equivalent_absorption_area frequency
  let structural_absorption_area ← room.calculate_structural_absorption_area frequency
  let acoustic_absorption_area := room.calculate_acoustic_absorption_area frequency
  let alpha_avg ← room.calculate_combined_average_absorption_coefficient frequency
  let phi_value := calculate_phi_function (alpha_avg : ℝ)
  let rt ← calculate_reverberation_time_for_frequency room frequency alpha_avg
    equivalent_absorption_area none false
  pure ⟨rt, alpha_avg, equivalent_absorption_area, structural_absorption_area,
    acoustic_absorption_area, phi_value⟩

/-- The combined per-frequency loop over a frequency list
(`acoustic_calculations.py` lines 188-215). -/
noncomputable def combinedBands (room : Room) :
    List Int → Except CalcError (List (Int × CombinedBandValues))
  | [] => pure []
  | f :: rest => do
    let bv ← (combinedBandCalc room f).mapError (CalcError.atFrequency f)
    let tail ← combinedBands room rest
    pure ((f, bv) :: tail)

/-- `calculate_combined_reverberation_time`
(`acoustic_calculations.py` lines 153-220). -/
noncomputable def calculate_combined_reverberation_time (room : Room) :
    Except CalcError CombinedCalcResults := do
  if room.materials = [] then throw CalcError.noMaterials
  else do
    let critical_frequency ← room.calculate_critical_frequency
    let room_volume ← room.volume
    let tsa ← room.total_surface_area
    let esa ← room.get_effective_surface_area
    let bands ← combinedBands room frequencies
    let _ ← validate_calculation_results
      (bands.map (fun b => (b.1, b.2.alpha_avg, b.2.reverberation_time)))
    pure ⟨critical_frequency, room_volume, tsa, esa, bands⟩

/-- Validity hypotheses used by the engine-level theorems: resolvable positive
geometry, at least one material, positive material areas, coefficients in
[0, 1] (spec §3 invariants / §8 "valid Rooms"). -/
def ValidRoom (room : Room) : Prop :=
  (∃ v, room.volume = .ok v ∧ 0 < v) ∧
  (∃ w, room.wall_area = .ok w ∧ 0 < w) ∧
  (∃ f, room.floor_area = .ok f ∧ 0 < f) ∧
  (∃ c, room.ceiling_area = .ok c ∧ 0 < c) ∧
  room.materials ≠ [] ∧
  (∀ m ∈ room.materials, 0 < m.area ∧
    ∀ p ∈ m.absorption_coefficients, 0 ≤ p.2 ∧ p.2 ≤ 1)

/-- Well-behaved materials (as guaranteed by `Material.init`). -/
def GoodMaterials (ms : List Material) : Prop :=
  ∀ m ∈ ms, 0 < m.area ∧ ∀ p ∈ m.absorption_coefficients, 0 ≤ p.2 ∧ p.2 ≤ 1

/-- Demo structural material: concrete floor finish (spec §8 scenario A). -/
def demoConcrete : Material :=
  ⟨"Бетон", "Пол", 80,
    [(125, 0.02), (250, 0.02), (500, 0.02), (1000, 0.03), (2000, 0.04), (4000, 0.05)],
    "Ограждающие конструкции"⟩

/-- Demo acoustic-treatment material: a 10 m² wall panel. -/
def demoPanel : Material :=
  ⟨"Акустическая панель", "Стены", 10, [(125, 0.5)], "Акустические конструкции"⟩

/-- Demo room 10 × 8 × 3.5 m (spec §8 scenario A) with the concrete floor:
volume 280 m³, wall 126 m², floor/ceiling 80 m² each, total 286 m². -/
def demoRoom : Room :=
  ⟨"Зал", "Аудитория", some 10, some 8, some 3.5, none, none, none, none,
    [demoConcrete]⟩

/-- The demo room with an acoustic panel added (total acoustic area 10 m²). -/
def demoRoomAcoustic : Room := { demoRoom with materials := [demoConcrete, demoPanel] }

/-- A fully absorbing 100 m² material, far larger than the room that holds
it. -/
def bigMaterial : Material :=
  ⟨"Поглотитель", "Стены", 100,
    [(125, 1), (250, 1), (500, 1), (1000, 1), (2000, 1), (4000, 1)],
    "Ограждающие конструкции"⟩

/-- A 1 × 1 × 1 m room (total surface 6 m²) holding `bigMaterial`, so the
recomputed average coefficient far exceeds 1. -/
def smallRoom : Room :=
  ⟨"Каморка", "Офис", some 1, some 1, some 1, none, none, none, none,
    [bigMaterial]⟩

instance {ε α : Type _} [DecidableEq ε] [DecidableEq α] : DecidableEq (Except ε α) := fun x y =>
  match x, y with
  | .ok a, .ok b => decidable_of_iff (a = b) (by simp)
  | .error e, .error f => decidable_of_iff (e = f) (by simp)
  | .ok _, .error _ => isFalse (by simp)
  | .error _, .ok _ => isFalse (by simp)

@[simp] theorem ok_bind {ε α β : Type _} (a : α) (g : α → Except ε β) :
    (Except.ok a >>= g : Except ε β) = g a := rfl

@[simp] theorem error_bind {ε α β : Type _} (e : ε) (g : α → Except ε β) :
    (Except.error e >>= g : Except ε β) = .error e := rfl

@[simp] theorem pure_eq_ok {ε α : Type _} (a : α) : (pure a : Except ε α) = .ok a := rfl

@[simp] theorem throw_eq_error {ε α : Type _} (e : ε) :
    (throw e : Except ε α) = .error e := rfl

@[simp] theorem mapError_ok {ε ε' α : Type _} (g : ε → ε') (a : α) :
    (Except.ok a : Except ε α).mapError g = .ok a := rfl

@[simp] theorem mapError_error {ε ε' α : Type _} (g : ε → ε') (e : ε) :
    (Except.error e : Except ε α).mapError g = .error (g e) := rfl

theorem lookupCoeff_mem : ∀ (l : List (Int × ℚ)) (f : Int) (c : ℚ),
    lookupCoeff l f = some c → (f, c) ∈ l
  | [], f, c, h => by simp [lookupCoeff] at h
  | (g, d) :: rest, f, c, h => by
    rw [lookupCoeff] at h
    by_cases hg : g = f
    · subst hg
      simp only [if_pos rfl] at h
      cases h
      exact List.mem_cons_self _ _
    · simp only [if_neg hg] at h
      exact List.mem_cons_of_mem _ (lookupCoeff_mem rest f c h)

theorem materialAbsorption_nonneg (m : Material) (f : Int)
    (harea : 0 ≤ m.area)
    (hco : ∀ p ∈ m.absorption_coefficients, 0 ≤ p.2 ∧ p.2 ≤ 1) :
    0 ≤ materialAbsorption m f := by
  unfold materialAbsorption
  cases hl : lookupCoeff m.absorption_coefficients f with
  | none => exact le_refl 0
  | some c =>
    have hmem := lookupCoeff_mem _ _ _ hl
    exact mul_nonneg harea (hco _ hmem).1

theorem mapped_sum_nonneg (ms : List Material) (g : Material → ℚ)
    (h : ∀ m ∈ ms, 0 ≤ g m) : 0 ≤ (ms.map g).sum := by
  apply List.sum_nonneg
  intro x hx
  obtain ⟨m, hm, rfl⟩ := List.mem_map.1 hx
  exact h m hm

theorem extraCoeff_pos (f : Int) : 0 < (if f ≤ 500 then (0.09 : ℚ) else 0.05) := by
  split <;> norm_num

theorem equivalent_absorption_area_eq (r : Room) (f : Int) (fl : ℚ)
    (hfl : r.floor_area = .ok fl) :
    r.calculate_equivalent_absorption_area f =
      .ok ((r.materials.map (fun m => materialAbsorption m f)).sum
        + (if f ≤ 500 then (0.09 : ℚ) else 0.05) * fl) := by
  simp only [Room.calculate_equivalent_absorption_area, hfl, ok_bind, pure_eq_ok]

theorem structural_absorption_area_eq (r : Room) (f : Int) (fl : ℚ)
    (hfl : r.floor_area = .ok fl) :
    r.calculate_structural_absorption_area f =
      .ok ((r.materials.map (fun m =>
          if m.category = "Ограждающие конструкции" then materialAbsorption m f else 0)).sum
        + (if f ≤ 500 then (0.09 : ℚ) else 0.05) * fl) := by
  simp only [Room.calculate_structural_absorption_area, hfl, ok_bind, pure_eq_ok]

theorem equivalent_absorption_area_pos (r : Room) (f : Int) (fl : ℚ)
    (hfl : r.floor_area = .ok fl) (hfl0 : 0 < fl)
    (hms : GoodMaterials r.materials) :
    ∃ e, r.calculate_equivalent_absorption_area f = .ok e ∧ 0 < e := by
  refine ⟨_, equivalent_absorption_area_eq r f fl hfl, ?_⟩
  have h1 : 0 ≤ (r.materials.map (fun m => materialAbsorption m f)).sum :=
    mapped_sum_nonneg _ _ (fun m hm =>
      materialAbsorption_nonneg m f (le_of_lt (hms m hm).1) (hms m hm).2)
  have h2 := extraCoeff_pos f
  nlinarith

theorem structural_absorption_area_pos (r : Room) (f : Int) (fl : ℚ)
    (hfl : r.floor_area = .ok fl) (hfl0 : 0 < fl)
    (hms : GoodMaterials r.materials) :
    ∃ e, r.calculate_structural_absorption_area f = .ok e ∧ 0 < e := by
  refine ⟨_, structural_absorption_area_eq r f fl hfl, ?_⟩
  have h1 : 0 ≤ (r.materials.map (fun m =>
      if m.category = "Ограждающие конструкции" then materialAbsorption m f else 0)).sum := by
    apply mapped_sum_nonneg
    intro m hm
    split
    · exact materialAbsorption_nonneg m f (le_of_lt (hms m hm).1) (hms m hm).2
    · exact le_refl 0
  have h2 := extraCoeff_pos f
  nlinarith

theorem phi_pos (x : ℝ) (hx : 0 < x) : 0 < calculate_phi_function x := by
  unfold calculate_phi_function
  have h1 : 0 < min x 0.99 := lt_min hx (by norm_num)
  have h2 : min x 0.99 ≤ 0.99 := min_le_right _ _
  have h3 : Real.log (1 - min x 0.99) < 0 := Real.log_neg (by linarith) (by linarith)
  linarith

theorem air_absorption_nonneg (f : Int) : 0 ≤ get_air_absorption_coefficient f := by
  unfold get_air_absorption_coefficient
  split_ifs <;> norm_num

theorem rt_ok_pos (room : Room) (f : Int) (alpha epz : ℚ) (sa : Option ℚ)
    (hasA : Bool) (t v : ℚ)
    (ht : rtEffectiveArea room sa hasA = .ok t) (ht0 : 0 < t)
    (hepz : 0 < epz) (hv : room.volume = .ok v) (hv0 : 0 < v) :
    ∃ rt, calculate_reverberation_time_for_frequency room f alpha epz sa hasA = .ok rt
      ∧ 0 < rt := by
  have htR : (0 : ℝ) < (t : ℚ) := by exact_mod_cast ht0
  have hvR : (0 : ℝ) < (v : ℚ) := by exact_mod_cast hv0
  have hphi : 0 < calculate_phi_function ((epz / t : ℚ) : ℝ) := by
    apply phi_pos
    have h : (0 : ℚ) < epz / t := div_pos hepz ht0
    exact_mod_cast h
  unfold calculate_reverberation_time_for_frequency
  rw [ht]
  simp only [ok_bind]
  rw [if_neg (by exact ne_of_gt ht0)]
  by_cases hf : f ≤ 1000
  · rw [if_pos hf]
    simp only [pure_eq_ok, ok_bind]
    have hden : (0 : ℝ) < (t : ℚ) * calculate_phi_function ((epz / t : ℚ) : ℝ) :=
      mul_pos htR hphi
    rw [if_neg (ne_of_gt hden)]
    rw [hv]
    simp only [ok_bind, pure_eq_ok]
    refine ⟨_, rfl, ?_⟩
    apply div_pos _ hden
    nlinarith
  · rw [if_neg hf]
    rw [hv]
    simp only [ok_bind, pure_eq_ok]
    have hair : (0 : ℝ) ≤ (get_air_absorption_coefficient f : ℚ) := by
      exact_mod_cast air_absorption_nonneg f
    have hden : (0 : ℝ) < (t : ℚ) * calculate_phi_function ((epz / t : ℚ) : ℝ)
        + (get_air_absorption_coefficient f : ℚ) * (v : ℚ) := by
      have h := mul_pos htR hphi
      nlinarith
    rw [if_neg (ne_of_gt hden)]
    refine ⟨_, rfl, ?_⟩
    apply div_pos _ hden
    nlinarith

theorem effective_eq_total (r : Room) :
    r.get_effective_surface_area = r.total_surface_area := rfl

theorem total_surface_area_ok (r : Room) (w fl c : ℚ)
    (hw : r.wall_area = .ok w) (hfl : r.floor_area = .ok fl)
    (hc : r.ceiling_area = .ok c) :
    r.total_surface_area = .ok (w + fl + c) := by
  simp only [Room.total_surface_area, hw, hfl, hc, ok_bind, pure_eq_ok]

theorem structural_avg_ok (r : Room) (f : Int) (e tsa : ℚ)
    (he : r.calculate_structural_absorption_area f = .ok e)
    (ht : r.total_surface_area = .ok tsa) (ht0 : tsa ≠ 0) :
    r.calculate_structural_average_absorption_coefficient f =
      .ok (min (e / tsa) 0.99) := by
  simp only [Room.calculate_structural_average_absorption_coefficient, he,
    Room.get_effective_surface_area, ht, ok_bind, if_neg ht0, throw_eq_error, pure_eq_ok]

theorem combined_avg_ok (r : Room) (f : Int) (e tsa : ℚ)
    (he : r.calculate_equivalent_absorption_area f = .ok e)
    (ht : r.total_surface_area = .ok tsa) (ht0 : tsa ≠ 0) :
    r.calculate_combined_average_absorption_coefficient f =
      .ok (min (e / tsa) 0.99) := by
  simp only [Room.calculate_combined_average_absorption_coefficient, he,
    Room.get_effective_surface_area, ht, ok_bind, if_neg ht0, throw_eq_error, pure_eq_ok]

theorem avg_bounds (e tsa : ℚ) (he : 0 < e) (ht : 0 < tsa) :
    0 ≤ min (e / tsa) 0.99 ∧ min (e / tsa) 0.99 ≤ 0.99 := by
  constructor
  · apply le_min
    · exact le_of_lt (div_pos he ht)
    · norm_num
  · exact min_le_right _ _

theorem rtEffectiveArea_none_false (r : Room) :
    rtEffectiveArea r none false = r.total_surface_area := by
  simp only [rtEffectiveArea]
  cases r.total_surface_area <;> rfl

theorem rtEffectiveArea_some_false (r : Room) (s : ℚ) :
    rtEffectiveArea r (some s) false = .ok s := rfl

theorem structuralBandCalc_ok (room : Room) (f : Int) (v w fl c : ℚ)
    (hv : room.volume = .ok v) (hv0 : 0 < v)
    (hw : room.wall_area = .ok w) (hw0 : 0 < w)
    (hfl : room.floor_area = .ok fl) (hfl0 : 0 < fl)
    (hc : room.ceiling_area = .ok c) (hc0 : 0 < c)
    (hms : GoodMaterials room.materials) :
    ∃ bv, structuralBandCalc room f = .ok bv ∧ 0 < bv.reverberation_time ∧
      0 ≤ bv.alpha_avg ∧ bv.alpha_avg ≤ 0.99 := by
  obtain ⟨e, he, he0⟩ := structural_absorption_area_pos room f fl hfl hfl0 hms
  have htsa : room.total_surface_area = .ok (w + fl + c) :=
    total_surface_area_ok room w fl c hw hfl hc
  have htsa0 : (0 : ℚ) < w + fl + c := by linarith
  have halpha := structural_avg_ok room f e (w + fl + c) he htsa (ne_of_gt htsa0)
  obtain ⟨rt, hrt, hrt0⟩ := rt_ok_pos room f (min (e / (w + fl + c)) 0.99) e
    (some (w + fl + c)) false (w + fl + c) v
    (rtEffectiveArea_some_false room (w + fl + c)) htsa0 he0 hv hv0
  refine ⟨⟨rt, min (e / (w + fl + c)) 0.99, e, calculate_phi_function
    ((min (e / (w + fl + c)) 0.99 : ℚ) : ℝ)⟩, ?_, hrt0, avg_bounds e _ he0 htsa0⟩
  simp only [structuralBandCalc, he, halpha, Room.get_effective_surface_area, htsa,
    ok_bind, hrt, pure_eq_ok]

theorem combinedBandCalc_ok (room : Room) (f : Int) (v w fl c : ℚ)
    (hv : room.volume = .ok v) (hv0 : 0 < v)
    (hw : room.wall_area = .ok w) (hw0 : 0 < w)
    (hfl : room.floor_area = .ok fl) (hfl0 : 0 < fl)
    (hc : room.ceiling_area = .ok c) (hc0 : 0 < c)
    (hms : GoodMaterials room.materials) :
    ∃ bv, combinedBandCalc room f = .ok bv ∧ 0 < bv.reverberation_time ∧
      0 ≤ bv.alpha_avg ∧ bv.alpha_avg ≤ 0.99 := by
  obtain ⟨e, he, he0⟩ := equivalent_absorption_area_pos room f fl hfl hfl0 hms
  obtain ⟨es, hes, hes0⟩ := structural_absorption_area_pos room f fl hfl hfl0 hms
  have htsa : room.total_surface_area = .ok (w + fl + c) :=
    total_surface_area_ok room w fl c hw hfl hc
  have htsa0 : (0 : ℚ) < w + fl + c := by linarith
  have halpha := combined_avg_ok room f e (w + fl + c) he htsa (ne_of_gt htsa0)
  have heffnone : rtEffectiveArea room none false = .ok (w + fl + c) := by
    rw [rtEffectiveArea_none_false, htsa]
  obtain ⟨rt, hrt, hrt0⟩ := rt_ok_pos room f (min (e / (w + fl + c)) 0.99) e
    none false (w + fl + c) v heffnone htsa0 he0 hv hv0
  refine ⟨⟨rt, min (e / (w + fl + c)) 0.99, e, es,
    room.calculate_acoustic_absorption_area f, calculate_phi_function
    ((min (e / (w + fl + c)) 0.99 : ℚ) : ℝ)⟩, ?_, hrt0, avg_bounds e _ he0 htsa0⟩
  simp only [combinedBandCalc, he, hes, halpha, ok_bind, hrt, pure_eq_ok]

theorem validate_ok (l : List (Int × ℚ × ℝ))
    (h : ∀ b ∈ l, 0 < b.2.2 ∧ 0 ≤ b.2.1 ∧ b.2.1 ≤ 1) :
    validate_calculation_results l = .ok () := by
  induction l with
  | nil => rfl
  | cons b rest ih =>
    obtain ⟨f, alpha, rt⟩ := b
    obtain ⟨h1, h2, h3⟩ := h _ (List.mem_cons_self _ _)
    rw [validate_calculation_results]
    rw [if_neg (by exact not_le.mpr h1)]
    rw [if_neg (not_not.mpr ⟨h2, h3⟩)]
    exact ih (fun b hb => h b (List.mem_cons_of_mem _ hb))

theorem critical_frequency_ok (room : Room) (v : ℚ)
    (hv : room.volume = .ok v) (hv0 : 0 < v) :
    room.calculate_critical_frequency = .ok (1770 / Real.sqrt (v : ℝ)) := by
  simp only [Room.calculate_critical_frequency, hv, ok_bind]
  rw [if_neg (by exact not_lt.mpr (le_of_lt hv0)), if_neg (by exact ne_of_gt hv0)]
  rfl

theorem structuralBands_ok (room : Room)
    (hband : ∀ f : Int, ∃ bv, structuralBandCalc room f = .ok bv ∧
      0 < bv.reverberation_time ∧ 0 ≤ bv.alpha_avg ∧ bv.alpha_avg ≤ 0.99) :
    ∀ fs : List Int, ∃ bs, structuralBands room fs = .ok bs ∧
      bs.map Prod.fst = fs ∧ ∀ b ∈ bs, 0 < b.2.reverberation_time ∧
        0 ≤ b.2.alpha_avg ∧ b.2.alpha_avg ≤ 0.99
  | [] => ⟨[], rfl, rfl, by simp⟩
  | f :: rest => by
    obtain ⟨bv, hbv, hbv1, hbv2, hbv3⟩ := hband f
    obtain ⟨bs, hbs, hmap, hall⟩ := structuralBands_ok room hband rest
    refine ⟨(f, bv) :: bs, ?_, by simp [hmap], ?_⟩
    · rw [structuralBands]
      simp only [hbv, mapError_ok, ok_bind, hbs, pure_eq_ok]
    · intro b hb
      rcases List.mem_cons.1 hb with hb | hb
      · subst hb; exact ⟨hbv1, hbv2, hbv3⟩
      · exact hall b hb

theorem combinedBands_ok (room : Room)
    (hband : ∀ f : Int, ∃ bv, combinedBandCalc room f = .ok bv ∧
      0 < bv.reverberation_time ∧ 0 ≤ bv.alpha_avg ∧ bv.alpha_avg ≤ 0.99) :
    ∀ fs : List Int, ∃ bs, combinedBands room fs = .ok bs ∧
      bs.map Prod.fst = fs ∧ ∀ b ∈ bs, 0 < b.2.reverberation_time ∧
        0 ≤ b.2.alpha_avg ∧ b.2.alpha_avg ≤ 0.99
  | [] => ⟨[], rfl, rfl, by simp⟩
  | f :: rest => by
    obtain ⟨bv, hbv, hbv1, hbv2, hbv3⟩ := hband f
    obtain ⟨bs, hbs, hmap, hall⟩ := combinedBands_ok room hband rest
    refine ⟨(f, bv) :: bs, ?_, by simp [hmap], ?_⟩
    · rw [combinedBands]
      simp only [hbv, mapError_ok, ok_bind, hbs, pure_eq_ok]
    · intro b hb
      rcases List.mem_cons.1 hb with hb | hb
      · subst hb; exact ⟨hbv1, hbv2, hbv3⟩
      · exact hall b hb

theorem structural_computation_ok (room : Room) (h : ValidRoom room) :
    ∃ res, calculate_structural_reverberation_time room = .ok res ∧
      res.bands.map Prod.fst = frequencies ∧
      ∀ b ∈ res.bands, 0 < b.2.reverberation_time ∧
        0 ≤ b.2.alpha_avg ∧ b.2.alpha_avg ≤ 0.99 := by
  obtain ⟨⟨v, hv, hv0⟩, ⟨w, hw, hw0⟩, ⟨fl, hfl, hfl0⟩, ⟨c, hc, hc0⟩, hne, hms⟩ := h
  have hband := fun f => structuralBandCalc_ok room f v w fl c hv hv0 hw hw0
    hfl hfl0 hc hc0 hms
  obtain ⟨bs, hbs, hmap, hall⟩ := structuralBands_ok room hband frequencies
  have htsa : room.total_surface_area = .ok (w + fl + c) :=
    total_surface_area_ok room w fl c hw hfl hc
  have hcf := critical_frequency_ok room v hv hv0
  have hval : validate_calculation_results
      (bs.map (fun b => (b.1, b.2.alpha_avg, b.2.reverberation_time))) = .ok () := by
    apply validate_ok
    intro b hb
    obtain ⟨p, hp, rfl⟩ := List.mem_map.1 hb
    obtain ⟨h1, h2, h3⟩ := hall p hp
    exact ⟨h1, h2, le_trans h3 (by norm_num)⟩
  refine ⟨⟨1770 / Real.sqrt (v : ℝ), v, w + fl + c, w + fl + c, bs⟩, ?_, hmap, hall⟩
  simp only [calculate_structural_reverberation_time, if_neg hne, hcf, hv, htsa,
    Room.get_effective_surface_area, hbs, hval, ok_bind, pure_eq_ok]

theorem combined_computation_ok (room : Room) (h : ValidRoom room) :
    ∃ res, calculate_combined_reverberation_time room = .ok res ∧
      res.bands.map Prod.fst = frequencies ∧
      ∀ b ∈ res.bands, 0 < b.2.reverberation_time ∧
        0 ≤ b.2.alpha_avg ∧ b.2.alpha_avg ≤ 0.99 := by
  obtain ⟨⟨v, hv, hv0⟩, ⟨w, hw, hw0⟩, ⟨fl, hfl, hfl0⟩, ⟨c, hc, hc0⟩, hne, hms⟩ := h
  have hband := fun f => combinedBandCalc_ok room f v w fl c hv hv0 hw hw0
    hfl hfl0 hc hc0 hms
  obtain ⟨bs, hbs, hmap, hall⟩ := combinedBands_ok room hband frequencies
  have htsa : room.total_surface_area = .ok (w + fl + c) :=
    total_surface_area_ok room w fl c hw hfl hc
  have hcf := critical_frequency_ok room v hv hv0
  have hval : validate_calculation_results
      (bs.map (fun b => (b.1, b.2.alpha_avg, b.2.reverberation_time))) = .ok () := by
    apply validate_ok
    intro b hb
    obtain ⟨p, hp, rfl⟩ := List.mem_map.1 hb
    obtain ⟨h1, h2, h3⟩ := hall p hp
    exact ⟨h1, h2, le_trans h3 (by norm_num)⟩
  refine ⟨⟨1770 / Real.sqrt (v : ℝ), v, w + fl + c, w + fl + c, bs⟩, ?_, hmap, hall⟩
  simp only [calculate_combined_reverberation_time, if_neg hne, hcf, hv, htsa,
    Room.get_effective_surface_area, hbs, hval, ok_bind, pure_eq_ok]

theorem sum_ite_eq_sum_filter (ms : List Material) (p : Material → Bool)
    (g : Material → ℚ) :
    (ms.map (fun m => if p m then g m else 0)).sum = ((ms.filter p).map g).sum := by
  induction ms with
  | nil => rfl
  | cons m rest ih =>
    by_cases hp : p m
    · simp [List.filter_cons, hp, ih]
    · simp [List.filter_cons, hp, ih]

/-- C2: for every Room, whatever materials are attached,
`get_effective_surface_area` returns exactly `total_surface_area`, i.e.
wall + floor + ceiling, with no subtraction of acoustic-treatment area:
it is wholly independent of the material list. -/
theorem C2_effective_area_is_total_area :
    ∀ room : Room,
      room.get_effective_surface_area =
        (do
          let w ← room.wall_area
          let fl ← room.floor_area
          let c ← room.ceiling_area
          pure (w + fl + c) : Except CalcError ℚ) ∧
      ∀ ms : List Material,
        ({ room with materials := ms } : Room).get_effective_surface_area =
          room.get_effective_surface_area :=
  fun _ => ⟨rfl, fun _ => rfl⟩

/-- C10: the combined average absorption coefficient coincides with the
all-materials average for every Room and band — both are
`min(equivalentAbsorptionArea / D, 0.99)` with the same divisor, because
`get_effective_surface_area` equals `total_surface_area`. -/
theorem C10_combined_avg_eq_all_materials_avg :
    ∀ (room : Room) (f : Int),
      room.calculate_combined_average_absorption_coefficient f =
        room.calculate_average_absorption_coefficient f ∧
      room.get_effective_surface_area = room.total_surface_area :=
  fun _ _ => ⟨rfl, rfl⟩

/-- C7 (amended): requesting the total area of a material name not attached
to the room returns 0; no lookup error is raised (the operation is total). -/
theorem C7_unknown_material_total_area_zero :
    ∀ (room : Room) (nm : String),
      (∀ m ∈ room.materials, m.name ≠ nm) →
      room.get_total_area_by_material nm = 0 := by
  intro room nm h
  unfold Room.get_total_area_by_material
  apply List.sum_eq_zero
  intro x hx
  obtain ⟨m, hm, rfl⟩ := List.mem_map.1 hx
  rw [if_neg (h m hm)]

/-- C7 witness: the demo room holds only "Бетон", and asking for "дерево"
returns 0. -/
theorem C7_witness :
    (∀ m ∈ demoRoom.materials, m.name ≠ "дерево") ∧
    demoRoom.get_total_area_by_material "дерево" = 0 := by
  have h : ∀ m ∈ demoRoom.materials, m.name ≠ "дерево" := by decide
  exact ⟨h, C7_unknown_material_total_area_zero demoRoom "дерево" h⟩

/-- C7 counterexample: the claim "requesting the total area of an absent
material name fails with a lookup error" is false — the call returns the
default 0 for the demo room and the absent name "дерево". -/
theorem C7_counterexample :
    demoRoom.get_total_area_by_material "дерево" = 0 ∧
    demoRoom.materials.all (fun m => !(m.name == "дерево")) = true := by
  constructor
  · norm_num [Room.get_total_area_by_material, demoRoom, demoConcrete]
    decide
  · decide

/-- C3 (amended): the all-materials and structural-only aggregates equal the
matching-material sum of area × coefficient(band) plus the additive term
floorArea × k(band) with k = 0.09 for band ≤ 500 Hz and 0.05 above; the
acoustic-only aggregate is the bare matching-material sum with NO additive
term (it never reads the floor area). -/
theorem C3_aggregates_and_additive_term :
    ∀ (room : Room) (f : Int) (fl : ℚ),
      room.floor_area = .ok fl →
      room.calculate_equivalent_absorption_area f =
        .ok ((room.materials.map (fun m => materialAbsorption m f)).sum
          + (if f ≤ 500 then (0.09 : ℚ) else 0.05) * fl) ∧
      room.calculate_structural_absorption_area f =
        .ok (((room.materials.filter
            (fun m => m.category == "Ограждающие конструкции")).map
            (fun m => materialAbsorption m f)).sum
          + (if f ≤ 500 then (0.09 : ℚ) else 0.05) * fl) ∧
      room.calculate_acoustic_absorption_area f =
        ((room.materials.filter
          (fun m => m.category == "Акустические конструкции")).map
          (fun m => materialAbsorption m f)).sum := by
  intro room f fl hfl
  refine ⟨equivalent_absorption_area_eq room f fl hfl, ?_, ?_⟩
  · rw [structural_absorption_area_eq room f fl hfl]
    rw [← sum_ite_eq_sum_filter]
    simp only [beq_iff_eq]
  · unfold Room.calculate_acoustic_absorption_area
    rw [← sum_ite_eq_sum_filter]
    simp only [beq_iff_eq]

/-- C3 witness: the instantiated aggregates of the demo room with an acoustic
panel at 125 Hz. -/
theorem C3_witness :
    demoRoomAcoustic.floor_area = .ok 80 ∧
    (demoRoomAcoustic.calculate_equivalent_absorption_area 125 =
      .ok ((demoRoomAcoustic.materials.map (fun m => materialAbsorption m 125)).sum
        + (if (125 : Int) ≤ 500 then (0.09 : ℚ) else 0.05) * 80) ∧
    demoRoomAcoustic.calculate_structural_absorption_area 125 =
      .ok (((demoRoomAcoustic.materials.filter
          (fun m => m.category == "Ограждающие конструкции")).map
          (fun m => materialAbsorption m 125)).sum
        + (if (125 : Int) ≤ 500 then (0.09 : ℚ) else 0.05) * 80) ∧
    demoRoomAcoustic.calculate_acoustic_absorption_area 125 =
      ((demoRoomAcoustic.materials.filter
        (fun m => m.category == "Акустические конструкции")).map
        (fun m => materialAbsorption m 125)).sum) := by
  have h : demoRoomAcoustic.floor_area = .ok 80 := by
    norm_num [demoRoomAcoustic, demoRoom, Room.floor_area]
  exact ⟨h, C3_aggregates_and_additive_term demoRoomAcoustic 125 80 h⟩

/-- C3 counterexample: the claim "the additive term is included regardless of
the category filter" is false for the acoustic-only aggregate — on the demo
room with a 10 m² panel (coefficient 0.5 at 125 Hz) and floor area 80 m² the
acoustic aggregate is 5, not 5 + 0.09 × 80 = 12.2. -/
theorem C3_counterexample :
    demoRoomAcoustic.calculate_acoustic_absorption_area 125 = 5 ∧
    demoRoomAcoustic.floor_area = .ok 80 ∧
    (5 : ℚ) ≠ 5 + 0.09 * 80 := by
  refine ⟨?_, ?_, by norm_num⟩
  · norm_num [Room.calculate_acoustic_absorption_area, demoRoomAcoustic, demoRoom,
      demoConcrete, demoPanel, materialAbsorption, lookupCoeff]
    decide
  · norm_num [demoRoomAcoustic, demoRoom, Room.floor_area]

theorem checkCoefficients_ok_bounds :
    ∀ l : List (Int × ℚ), checkCoefficients l = .ok () →
      ∀ p ∈ l, 0 ≤ p.2 ∧ p.2 ≤ 1
  | [], _, p, hp => by simp at hp
  | (f, c) :: rest, h, p, hp => by
    rw [checkCoefficients] at h
    by_cases h1 : f ≤ 0
    · rw [if_pos h1] at h; cases h
    · rw [if_neg h1] at h
      by_cases h2 : ¬ (0 ≤ c ∧ c ≤ 1)
      · rw [if_pos h2] at h; cases h
      · rw [if_neg h2] at h
        rcases List.mem_cons.1 hp with rfl | hp
        · exact not_not.1 h2
        · exact checkCoefficients_ok_bounds rest h p hp

theorem material_init_ok_inv (name st : String) (area : ℚ)
    (coeffs : List (Int × ℚ)) (cat : String) (m : Material)
    (h : Material.init name st area coeffs cat = .ok m) :
    m.absorption_coefficients = coeffs ∧
      ∀ p ∈ coeffs, 0 ≤ p.2 ∧ p.2 ≤ 1 := by
  unfold Material.init at h
  split_ifs at h
  cases hcc : checkCoefficients coeffs with
  | error e => rw [hcc] at h; cases h
  | ok u =>
    rw [hcc] at h
    cases h
    exact ⟨rfl, checkCoefficients_ok_bounds coeffs (by cases u; exact hcc)⟩

theorem insertCoeff_mem :
    ∀ (l : List (Int × ℚ)) (f : Int) (c : ℚ) (p : Int × ℚ),
      p ∈ insertCoeff l f c → p = (f, c) ∨ p ∈ l
  | [], f, c, p, hp => by
    rw [insertCoeff] at hp
    rcases List.mem_cons.1 hp with rfl | hp
    · exact Or.inl rfl
    · simp at hp
  | (g, d) :: rest, f, c, p, hp => by
    rw [insertCoeff] at hp
    by_cases hg : g = f
    · rw [if_pos hg] at hp
      rcases List.mem_cons.1 hp with rfl | hp
      · exact Or.inl rfl
      · exact Or.inr (List.mem_cons_of_mem _ hp)
    · rw [if_neg hg] at hp
      rcases List.mem_cons.1 hp with rfl | hp
      · exact Or.inr (List.mem_cons_self _ _)
      · rcases insertCoeff_mem rest f c p hp with h | h
        · exact Or.inl h
        · exact Or.inr (List.mem_cons_of_mem _ h)

/-- C8: an out-of-range coefficient always makes Material construction fail;
the concrete 1.5 scenario fails with the range error at 125 Hz;
`set_absorption_coefficient` rejects out-of-range coefficients with the range
error; and no out-of-range coefficient is ever stored, either by construction
or by a successful setter call. -/
theorem C8_coefficient_range_enforced :
    (∀ (name st : String) (area : ℚ) (coeffs : List (Int × ℚ)) (cat : String),
      (∃ p ∈ coeffs, ¬ (0 ≤ p.2 ∧ p.2 ≤ 1)) →
      (Material.init name st area coeffs cat).isOk = false) ∧
    Material.init "Бетон" "Пол" 80 [(125, 1.5)] =
      .error (.coefficientOutOfRange 125) ∧
    (∀ (m : Material) (f : Int) (c : ℚ),
      0 < f → ¬ (0 ≤ c ∧ c ≤ 1) →
      m.set_absorption_coefficient f c = .error (.coefficientOutOfRange f)) ∧
    (∀ (name st : String) (area : ℚ) (coeffs : List (Int × ℚ)) (cat : String)
      (m : Material), Material.init name st area coeffs cat = .ok m →
      ∀ p ∈ m.absorption_coefficients, 0 ≤ p.2 ∧ p.2 ≤ 1) ∧
    (∀ (m : Material) (f : Int) (c : ℚ) (m' : Material),
      (∀ p ∈ m.absorption_coefficients, 0 ≤ p.2 ∧ p.2 ≤ 1) →
      m.set_absorption_coefficient f c = .ok m' →
      ∀ p ∈ m'.absorption_coefficients, 0 ≤ p.2 ∧ p.2 ≤ 1) := by
  refine ⟨?_, ?_, ?_, ?_, ?_⟩
  · intro name st area coeffs cat ⟨p, hp, hbad⟩
    cases hinit : Material.init name st area coeffs cat with
    | error e => rfl
    | ok m =>
      obtain ⟨_, hbounds⟩ := material_init_ok_inv name st area coeffs cat m hinit
      exact absurd (hbounds p hp) hbad
  · norm_num [Material.init, isBlank, surfaceTypes, materialCategories,
      checkCoefficients]
    decide
  · intro m f c hf hbad
    unfold Material.set_absorption_coefficient
    rw [if_neg (not_le.mpr hf), if_pos hbad]
  · intro name st area coeffs cat m h
    obtain ⟨hcoeffs, hbounds⟩ := material_init_ok_inv name st area coeffs cat m h
    rw [hcoeffs]
    exact hbounds
  · intro m f c m' hb h
    unfold Material.set_absorption_coefficient at h
    split_ifs at h with h1 h2
    cases h
    intro p hp
    rcases insertCoeff_mem _ _ _ _ hp with rfl | hp
    · exact h2
    · exact hb p hp

@[simp] theorem isOk_ok {ε α : Type _} (a : α) : (Except.ok a : Except ε α).isOk = true := rfl

@[simp] theorem isOk_error {ε α : Type _} (e : ε) :
    (Except.error e : Except ε α).isOk = false := rfl

theorem dimsNonpositive_false_of_optPos :
    ∀ l w h : Option ℚ, optPos l = true → optPos w = true → optPos h = true →
      dimsNonpositive l w h = false := by
  intro l w h hl hw hh
  cases l <;> cases w <;> cases h <;> simp [optPos] at hl hw hh
  rw [dimsNonpositive]
  simp only [decide_eq_false_iff_not]
  push_neg
  exact ⟨hl, hw, hh⟩

/-- C6 (amended): Room construction succeeds iff the name is non-blank, every
supplied manual area is positive, and EITHER all three dimensions are present
and positive OR at least one manual area is present and positive (a single
positive manual area already suffices); with no geometry source at all it
fails with the configuration error. -/
theorem C6_room_init_success_iff :
    ∀ (name purpose : String) (l w h mwa mfa mca mv : Option ℚ),
      (Room.init name purpose l w h mwa mfa mca mv).isOk = true ↔
        (isBlank name = false ∧
         ((optPos l && optPos w && optPos h) = true ∨
          (optPos mwa || optPos mfa || optPos mca) = true) ∧
         optNonpos mwa = false ∧ optNonpos mfa = false ∧ optNonpos mca = false) := by
  intro name purpose l w h mwa mfa mca mv
  unfold Room.init
  by_cases h1 : isBlank name = true
  · rw [if_pos h1]
    simp only [isOk_error]
    refine ⟨fun hc => absurd hc (by decide), ?_⟩
    rintro ⟨hbl, -, -⟩
    simp [hbl] at h1
  · rw [if_neg h1]
    by_cases h2 : (!(optPos l && optPos w && optPos h) &&
        !(optPos mwa || optPos mfa || optPos mca)) = true
    · rw [if_pos h2]
      simp only [isOk_error]
      refine ⟨fun hc => absurd hc (by decide), ?_⟩
      rintro ⟨-, hsrc, -⟩
      rw [Bool.and_eq_true, Bool.not_eq_true', Bool.not_eq_true'] at h2
      rcases hsrc with hd | hm
      · simp [h2.1] at hd
      · simp [h2.2] at hm
    · rw [if_neg h2]
      by_cases h3 : ((optPos l && optPos w && optPos h) && dimsNonpositive l w h) = true
      · rw [Bool.and_eq_true] at h3
        obtain ⟨hd, hdim⟩ := h3
        rw [Bool.and_eq_true, Bool.and_eq_true] at hd
        rw [dimsNonpositive_false_of_optPos l w h hd.1.1 hd.1.2 hd.2] at hdim
        exact absurd hdim (by decide)
      · rw [if_neg h3]
        by_cases h4 : optNonpos mwa = true
        · rw [if_pos h4]
          simp only [isOk_error]
          refine ⟨fun hc => absurd hc (by decide), ?_⟩
          rintro ⟨-, -, hwa, -, -⟩
          simp [hwa] at h4
        · rw [if_neg h4]
          by_cases h5 : optNonpos mfa = true
          · rw [if_pos h5]
            simp only [isOk_error]
            refine ⟨fun hc => absurd hc (by decide), ?_⟩
            rintro ⟨-, -, -, hfa, -⟩
            simp [hfa] at h5
          · rw [if_neg h5]
            by_cases h6 : optNonpos mca = true
            · rw [if_pos h6]
              simp only [isOk_error]
              refine ⟨fun hc => absurd hc (by decide), ?_⟩
              rintro ⟨-, -, -, -, hca⟩
              simp [hca] at h6
            · rw [if_neg h6]
              simp only [isOk_ok, true_iff]
              refine ⟨?_, ?_, ?_, ?_, ?_⟩
              · exact Bool.not_eq_true _ ▸ h1
              · by_cases hd : (optPos l && optPos w && optPos h) = true
                · exact Or.inl hd
                · by_cases hm : (optPos mwa || optPos mfa || optPos mca) = true
                  · exact Or.inr hm
                  · refine absurd ?_ h2
                    rw [Bool.not_eq_true] at hd hm
                    simp [hd, hm]
              · exact Bool.not_eq_true _ ▸ h4
              · exact Bool.not_eq_true _ ▸ h5
              · exact Bool.not_eq_true _ ▸ h6

/-- C6 counterexample: construction succeeds from a single positive manual
wall area — no complete geometry source (neither all three dimensions nor
all three manual areas) is supplied, yet there is no configuration error. -/
theorem C6_counterexample :
    (Room.init "Зал" "Офис" none none none (some 10) none none none).isOk = true ∧
    ¬ ((optPos (none : Option ℚ) && optPos (none : Option ℚ) &&
        optPos (none : Option ℚ)) = true ∨
       (optPos (some (10 : ℚ)) && optPos (none : Option ℚ) &&
        optPos (none : Option ℚ)) = true) := by
  constructor
  · decide
  · decide

theorem validRoom_demoRoom : ValidRoom demoRoom := by
  refine ⟨⟨280, ?_, by norm_num⟩, ⟨126, ?_, by norm_num⟩, ⟨80, ?_, by norm_num⟩,
    ⟨80, ?_, by norm_num⟩, by decide, ?_⟩
  · norm_num [demoRoom, Room.volume]
  · norm_num [demoRoom, Room.wall_area]
  · norm_num [demoRoom, Room.floor_area]
  · norm_num [demoRoom, Room.ceiling_area]
  · intro m hm
    rcases List.mem_singleton.1 hm with rfl
    refine ⟨by norm_num [demoConcrete], ?_⟩
    intro p hp
    fin_cases hp <;> norm_num [demoConcrete]

theorem validRoom_demoRoomAcoustic : ValidRoom demoRoomAcoustic := by
  refine ⟨⟨280, ?_, by norm_num⟩, ⟨126, ?_, by norm_num⟩, ⟨80, ?_, by norm_num⟩,
    ⟨80, ?_, by norm_num⟩, by decide, ?_⟩
  · norm_num [demoRoomAcoustic, demoRoom, Room.volume]
  · norm_num [demoRoomAcoustic, demoRoom, Room.wall_area]
  · norm_num [demoRoomAcoustic, demoRoom, Room.floor_area]
  · norm_num [demoRoomAcoustic, demoRoom, Room.ceiling_area]
  · intro m hm
    rcases List.mem_cons.1 hm with rfl | hm
    · refine ⟨by norm_num [demoConcrete], ?_⟩
      intro p hp
      fin_cases hp <;> norm_num [demoConcrete]
    · rcases List.mem_singleton.1 hm with rfl
      refine ⟨by norm_num [demoPanel], ?_⟩
      intro p hp
      fin_cases hp
      norm_num [demoPanel]

theorem validRoom_smallRoom : ValidRoom smallRoom := by
  refine ⟨⟨1, ?_, by norm_num⟩, ⟨4, ?_, by norm_num⟩, ⟨1, ?_, by norm_num⟩,
    ⟨1, ?_, by norm_num⟩, by decide, ?_⟩
  · norm_num [smallRoom, Room.volume]
  · norm_num [smallRoom, Room.wall_area]
  · norm_num [smallRoom, Room.floor_area]
  · norm_num [smallRoom, Room.ceiling_area]
  · intro m hm
    rcases List.mem_singleton.1 hm with rfl
    refine ⟨by norm_num [bigMaterial], ?_⟩
    intro p hp
    fin_cases hp <;> norm_num [bigMaterial]

/-- C4: every valid Room (positive resolvable geometry, at least one
material, positive material areas, coefficients in [0,1]) makes both the
structural-only and the combined computation succeed, covering exactly the
six standard bands, with every band's reverberation time strictly positive
and every band's average absorption coefficient within [0, 0.99]. -/
theorem C4_valid_rooms_compute (room : Room) (h : ValidRoom room) :
    (∃ res, calculate_structural_reverberation_time room = .ok res ∧
      res.bands.map Prod.fst = frequencies ∧
      ∀ b ∈ res.bands, 0 < b.2.reverberation_time ∧
        0 ≤ b.2.alpha_avg ∧ b.2.alpha_avg ≤ 0.99) ∧
    (∃ res, calculate_combined_reverberation_time room = .ok res ∧
      res.bands.map Prod.fst = frequencies ∧
      ∀ b ∈ res.bands, 0 < b.2.reverberation_time ∧
        0 ≤ b.2.alpha_avg ∧ b.2.alpha_avg ≤ 0.99) :=
  ⟨structural_computation_ok room h, combined_computation_ok room h⟩

/-- C4 witness: the demo room is valid and both computations succeed on it
with the stated per-band bounds. -/
theorem C4_witness :
    ValidRoom demoRoom ∧
    ((∃ res, calculate_structural_reverberation_time demoRoom = .ok res ∧
      res.bands.map Prod.fst = frequencies ∧
      ∀ b ∈ res.bands, 0 < b.2.reverberation_time ∧
        0 ≤ b.2.alpha_avg ∧ b.2.alpha_avg ≤ 0.99) ∧
    (∃ res, calculate_combined_reverberation_time demoRoom = .ok res ∧
      res.bands.map Prod.fst = frequencies ∧
      ∀ b ∈ res.bands, 0 < b.2.reverberation_time ∧
        0 ≤ b.2.alpha_avg ∧ b.2.alpha_avg ≤ 0.99)) :=
  ⟨validRoom_demoRoom, C4_valid_rooms_compute demoRoom validRoom_demoRoom⟩

/-- C1 (amended): the combined computation's call to the reverberation-time
primitive leaves `surface_area = None` and `has_acoustic_materials = False`
(the defaults), so the primitive performs NO acoustic-area subtraction: the
denominator area it uses equals the room's total surface area, it is never
the total minus the (nonzero) acoustic-treatment area, and the call behaves
exactly as an explicit call with the total surface area and no subtraction. -/
theorem C1_combined_performs_no_subtraction (room : Room) (t : ℚ)
    (h : room.total_surface_area = .ok t) :
    rtEffectiveArea room none false = .ok t ∧
    (acousticAreaTotal room ≠ 0 →
      rtEffectiveArea room none false ≠ .ok (t - acousticAreaTotal room)) ∧
    ∀ (f : Int) (alpha epz : ℚ),
      calculate_reverberation_time_for_frequency room f alpha epz none false =
        calculate_reverberation_time_for_frequency room f alpha epz (some t) false := by
  have he : rtEffectiveArea room none false = .ok t := by
    rw [rtEffectiveArea_none_false, h]
  refine ⟨he, ?_, ?_⟩
  · intro ha hcontra
    rw [he] at hcontra
    injection hcontra with hval
    apply ha
    linarith [hval]
  · intro f alpha epz
    unfold calculate_reverberation_time_for_frequency
    rw [rtEffectiveArea_none_false, h, rtEffectiveArea_some_false]

/-- C1 witness: the demo room with an acoustic panel, total surface 286 m². -/
theorem C1_witness :
    demoRoomAcoustic.total_surface_area = .ok 286 ∧
    (rtEffectiveArea demoRoomAcoustic none false = .ok 286 ∧
    (acousticAreaTotal demoRoomAcoustic ≠ 0 →
      rtEffectiveArea demoRoomAcoustic none false ≠
        .ok (286 - acousticAreaTotal demoRoomAcoustic)) ∧
    ∀ (f : Int) (alpha epz : ℚ),
      calculate_reverberation_time_for_frequency demoRoomAcoustic f alpha epz none false =
        calculate_reverberation_time_for_frequency demoRoomAcoustic f alpha epz
          (some 286) false) := by
  have h : demoRoomAcoustic.total_surface_area = .ok 286 := by
    norm_num [demoRoomAcoustic, demoRoom, Room.total_surface_area, Room.wall_area,
      Room.floor_area, Room.ceiling_area]
  exact ⟨h, C1_combined_performs_no_subtraction demoRoomAcoustic 286 h⟩

/-- C1 counterexample: on the demo room with a 10 m² acoustic panel the
combined computation runs (it succeeds), its reverberation-time calls use the
denominator area 286 = the full total surface area, and not
286 − 10 = 276 as the claim requires. -/
theorem C1_counterexample :
    (calculate_combined_reverberation_time demoRoomAcoustic).isOk = true ∧
    acousticAreaTotal demoRoomAcoustic = 10 ∧
    demoRoomAcoustic.total_surface_area = .ok 286 ∧
    rtEffectiveArea demoRoomAcoustic none false = .ok 286 ∧
    (286 : ℚ) ≠ 286 - 10 := by
  have h : demoRoomAcoustic.total_surface_area = .ok 286 := by
    norm_num [demoRoomAcoustic, demoRoom, Room.total_surface_area, Room.wall_area,
      Room.floor_area, Room.ceiling_area]
  refine ⟨?_, ?_, h, ?_, by norm_num⟩
  · obtain ⟨res, hres, -, -⟩ :=
      combined_computation_ok demoRoomAcoustic validRoom_demoRoomAcoustic
    rw [hres]
    rfl
  · norm_num [acousticAreaTotal, demoRoomAcoustic, demoRoom, demoConcrete, demoPanel]
    decide
  · rw [rtEffectiveArea_none_false, h]

theorem clamped_avg_le (A B : Except CalcError ℚ) (a : ℚ)
    (h : (do
        let e ← A
        let t ← B
        if t = 0 then throw CalcError.zeroDivision
        else pure (min (e / t) 0.99) : Except CalcError ℚ) = .ok a) :
    a ≤ 0.99 := by
  cases A with
  | error e => simp only [error_bind] at h; cases h
  | ok e =>
    simp only [ok_bind] at h
    cases B with
    | error e2 => simp only [error_bind] at h; cases h
    | ok t =>
      simp only [ok_bind] at h
      by_cases ht : t = 0
      · rw [if_pos ht] at h; cases h
      · rw [if_neg ht] at h
        injection h with h
        rw [← h]
        exact min_le_right _ _

/-- C9 (amended): the engine-level phi calls receive upstream-clamped
averages (every average-coefficient operation yields a value ≤ 0.99), but
the reverberation-time primitive recomputes an UNCLAMPED average and can pass
phi an argument ≥ 1; safety comes from phi's own internal clamp
min(α, 0.99), which keeps the argument of the logarithm at least 0.01. -/
theorem C9_phi_clamp_is_internal :
    (∀ x : ℝ, min x 0.99 ≤ 0.99 ∧ (0.01 : ℝ) ≤ 1 - min x 0.99 ∧
      calculate_phi_function x = -Real.log (1 - min x 0.99)) ∧
    (∀ (room : Room) (f : Int) (a : ℚ),
      room.calculate_combined_average_absorption_coefficient f = .ok a →
        a ≤ 0.99) ∧
    (∀ (room : Room) (f : Int) (a : ℚ),
      room.calculate_structural_average_absorption_coefficient f = .ok a →
        a ≤ 0.99) ∧
    (∀ (room : Room) (f : Int) (a : ℚ),
      room.calculate_average_absorption_coefficient f = .ok a → a ≤ 0.99) := by
  refine ⟨?_, ?_, ?_, ?_⟩
  · intro x
    have hm := min_le_right x (0.99 : ℝ)
    exact ⟨hm, by linarith, rfl⟩
  · intro room f a h
    exact clamped_avg_le _ _ a h
  · intro room f a h
    exact clamped_avg_le _ _ a h
  · intro room f a h
    exact clamped_avg_le _ _ a h

/-- C9 counterexample: on the 1 m³ room with a fully absorbing 100 m²
material the combined computation runs (it succeeds) and its
reverberation-time call passes phi the unclamped recomputed average
10009/600 ≈ 16.68 ≥ 1 — phi does receive an argument ≥ 1. -/
theorem C9_counterexample :
    (calculate_combined_reverberation_time smallRoom).isOk = true ∧
    smallRoom.calculate_equivalent_absorption_area 125 = .ok (10009 / 100) ∧
    rtPhiArgument smallRoom (10009 / 100) none false = .ok (10009 / 600) ∧
    (1 : ℚ) ≤ 10009 / 600 := by
  have ht : smallRoom.total_surface_area = .ok 6 := by
    norm_num [smallRoom, Room.total_surface_area, Room.wall_area,
      Room.floor_area, Room.ceiling_area]
  refine ⟨?_, ?_, ?_, by norm_num⟩
  · obtain ⟨res, hres, -, -⟩ :=
      combined_computation_ok smallRoom validRoom_smallRoom
    rw [hres]
    rfl
  · norm_num [smallRoom, Room.calculate_equivalent_absorption_area, Room.floor_area,
      bigMaterial, materialAbsorption, lookupCoeff]
  · simp only [rtPhiArgument, rtEffectiveArea_none_false, ht, ok_bind]
    rw [if_neg (by norm_num)]
    norm_num

/-- C5 (amended): whenever the (post-subtraction) denominator area `t` is
nonzero, the reverberation-time primitive returns exactly
`0.163 × volume / denominator` with
`denominator = t × φ(EPZ/t)` for band ≤ 1000 Hz and
`t × φ(EPZ/t) + n(band) × volume` above, failing with the
degenerate-denominator error exactly when that denominator is zero; the air
coefficient table is {125,250,500,1000 ↦ 0, 2000 ↦ 0.0010, 4000 ↦ 0.0002}
with default 0.0006.  (When the denominator area is zero the call instead
fails earlier with a division error — see the counterexample.) -/
theorem C5_reverberation_formula :
    (∀ (room : Room) (f : Int) (alpha epz : ℚ) (sa : Option ℚ) (hasA : Bool)
      (t v : ℚ),
      rtEffectiveArea room sa hasA = .ok t → t ≠ 0 → room.volume = .ok v →
      calculate_reverberation_time_for_frequency room f alpha epz sa hasA =
        if (if f ≤ 1000 then (t : ℝ) * calculate_phi_function ((epz / t : ℚ) : ℝ)
            else (t : ℝ) * calculate_phi_function ((epz / t : ℚ) : ℝ)
              + ((get_air_absorption_coefficient f : ℚ) : ℝ) * ((v : ℚ) : ℝ)) = 0
        then .error .zeroDenominator
        else .ok (0.163 * ((v : ℚ) : ℝ) /
          (if f ≤ 1000 then (t : ℝ) * calculate_phi_function ((epz / t : ℚ) : ℝ)
           else (t : ℝ) * calculate_phi_function ((epz / t : ℚ) : ℝ)
             + ((get_air_absorption_coefficient f : ℚ) : ℝ) * ((v : ℚ) : ℝ)))) ∧
    get_air_absorption_coefficient 125 = 0 ∧
    get_air_absorption_coefficient 250 = 0 ∧
    get_air_absorption_coefficient 500 = 0 ∧
    get_air_absorption_coefficient 1000 = 0 ∧
    get_air_absorption_coefficient 2000 = 0.0010 ∧
    get_air_absorption_coefficient 4000 = 0.0002 ∧
    (∀ g : Int, g ∉ frequencies → get_air_absorption_coefficient g = 0.0006) := by
  refine ⟨?_, by norm_num [get_air_absorption_coefficient],
    by norm_num [get_air_absorption_coefficient],
    by norm_num [get_air_absorption_coefficient],
    by norm_num [get_air_absorption_coefficient],
    by norm_num [get_air_absorption_coefficient],
    by norm_num [get_air_absorption_coefficient], ?_⟩
  · intro room f alpha epz sa hasA t v ht ht0 hv
    unfold calculate_reverberation_time_for_frequency
    rw [ht]
    simp only [ok_bind]
    rw [if_neg ht0]
    by_cases hf : f ≤ 1000
    · simp only [if_pos hf, pure_eq_ok, ok_bind]
      by_cases hden : ((t : ℚ) : ℝ) * calculate_phi_function ((epz / t : ℚ) : ℝ) = 0
      · simp only [if_pos hden, throw_eq_error]
      · simp only [if_neg hden]
        rw [hv]
        simp only [ok_bind, pure_eq_ok]
    · simp only [if_neg hf]
      rw [hv]
      simp only [ok_bind, pure_eq_ok]
      by_cases hden : ((t : ℚ) : ℝ) * calculate_phi_function ((epz / t : ℚ) : ℝ)
          + ((get_air_absorption_coefficient f : ℚ) : ℝ) * ((v : ℚ) : ℝ) = 0
      · simp only [if_pos hden, throw_eq_error]
      · simp only [if_neg hden]
  · intro g hg
    simp only [frequencies, List.mem_cons, List.not_mem_nil, or_false] at hg
    push_neg at hg
    obtain ⟨h1, h2, h3, h4, h5, h6⟩ := hg
    unfold get_air_absorption_coefficient
    rw [if_neg h1, if_neg h2, if_neg h3, if_neg h4, if_neg h5, if_neg h6]

/-- C5 counterexample: called with an explicit surface area of 0 (so the
denominator area is 0) at 2000 Hz on the demo room, the primitive fails with
the ZeroDivision error from the average-coefficient division — not with the
degenerate-denominator error — although the claim's denominator
`0 × φ + n(2000) × volume = 0.0010 × 280 = 0.28` is nonzero, so by the claim
the call should have succeeded. -/
theorem C5_counterexample :
    calculate_reverberation_time_for_frequency demoRoom 2000 0 1 (some 0) false =
      .error .zeroDivision ∧
    demoRoom.volume = .ok 280 ∧
    (0 : ℝ) * calculate_phi_function ((1 / 0 : ℚ) : ℝ)
      + ((get_air_absorption_coefficient 2000 : ℚ) : ℝ) * ((280 : ℚ) : ℝ) ≠ 0 := by
  refine ⟨?_, by norm_num [demoRoom, Room.volume], ?_⟩
  · unfold calculate_reverberation_time_for_frequency
    rw [rtEffectiveArea_some_false]
    simp only [ok_bind]
    simp
  · norm_num [get_air_absorption_coefficient]
